import Mathlib

/-!
Shallow embedding of the MPI (market penetration index) calculation engine of
the `mpi-project` repository: `src/lib/mpi-calculator.ts`,
`src/lib/data-loader.ts` and `src/types/index.ts`.

Modelling conventions:
* JS numbers are modelled as `Rat` (exact rationals; IEEE-754 rounding is not
  modelled).
* JS `Date` values are modelled at day granularity (`Date` below); every date
  the source compares is a midnight-based day, so day-level comparison is
  faithful.
* JS `undefined`/absent values are `Option.none`; a JSON `null` stored inside
  a data array is modelled by an explicit `null` constructor, because the
  source distinguishes the two (`!== undefined` vs `!== null`).
* String scanning helpers are reimplemented structurally over `String.data`
  so that every definition is executable by kernel reduction.
-/

/-- Calendar date at day granularity. -/
structure Date where
  year : Nat
  month : Nat
  day : Nat
deriving DecidableEq, Repr

/-- Numeric key giving the calendar order of a date (faithful for the
calendar dates the source manipulates: month ≤ 12, day ≤ 31). -/
def Date.key (d : Date) : Nat := d.year * 10000 + d.month * 100 + d.day

/-- Date comparison, modelling JS `Date` `<=` (timestamp order). -/
def dateLE (a b : Date) : Bool := decide (a.key ≤ b.key)

/-- Gregorian leap-year rule, as implemented by JS `Date` month rollover. -/
def isLeapYear (y : Nat) : Bool :=
  decide ((y % 4 = 0 ∧ y % 100 ≠ 0) ∨ y % 400 = 0)

/-- Number of days in a month (JS `Date` calendar arithmetic). -/
def daysInMonth (y m : Nat) : Nat :=
  if m = 2 then (if isLeapYear y then 29 else 28)
  else if m = 4 ∨ m = 6 ∨ m = 9 ∨ m = 11 then 30 else 31

/-- Successor day, with month/year rollover (JS `setDate` semantics). -/
def nextDay (d : Date) : Date :=
  if d.day < daysInMonth d.year d.month then ⟨d.year, d.month, d.day + 1⟩
  else if d.month < 12 then ⟨d.year, d.month + 1, 1⟩
  else ⟨d.year + 1, 1, 1⟩

/-- Adding `n` days to a date (JS `d.setDate(d.getDate() + n)`). -/
def addDays (d : Date) : Nat → Date
  | 0 => d
  | n + 1 => nextDay (addDays d n)

/-- Days of the given year that precede month `m`. -/
def daysBeforeMonth (y m : Nat) : Nat :=
  ((List.range (m - 1)).map (fun i => daysInMonth y (i + 1))).sum

/-- Linear day count of a date, used to model the millisecond difference of
two JS dates divided by 86 400 000. -/
def toDayNumber (d : Date) : Nat :=
  (d.year - 1) * 365 + (d.year - 1) / 4 - (d.year - 1) / 100 + (d.year - 1) / 400
    + daysBeforeMonth d.year d.month + d.day

/-- Difference `end - start` in whole days, modelling
`Math.floor((endDate.getTime() - startDate.getTime()) / 86400000)`. -/
def daysBetween (s e : Date) : Int :=
  (toDayNumber e : Int) - (toDayNumber s : Int)

/-- Splitting a character list at every occurrence of `sep`, modelling JS
`String.prototype.split`. -/
def splitOnChar (sep : Char) : List Char → List (List Char)
  | [] => [[]]
  | c :: cs =>
    match splitOnChar sep cs with
    | [] => if c = sep then [[], []] else [[c]]
    | h :: t => if c = sep then [] :: h :: t else (c :: h) :: t

/-- Numeric value of a digit run. -/
def digitsVal (cs : List Char) : Nat :=
  cs.foldl (fun acc c => acc * 10 + (c.toNat - '0'.toNat)) 0

/-- Parsing a nonempty all-digit character run as a natural number. -/
def digitsToNat (cs : List Char) : Option Nat :=
  if cs ≠ [] ∧ cs.all Char.isDigit then some (digitsVal cs) else none

/-- Parsing an ISO `YYYY-MM-DD` label to a date, modelling
`new Date(dateStr)` on the daily labels of the reference feed (an invalid
date yields `none`, matching the JS `Invalid Date` whose comparisons are all
false). -/
def parseDailyDate (s : String) : Option Date :=
  match splitOnChar '-' s.data with
  | [ys, ms, ds] =>
    match digitsToNat ys, digitsToNat ms, digitsToNat ds with
    | some y, some m, some d =>
      if 1 ≤ m ∧ m ≤ 12 ∧ 1 ≤ d ∧ d ≤ daysInMonth y m then some ⟨y, m, d⟩
      else none
    | _, _, _ => none
  | _ => none

/-- Month-name lookup used when parsing `"Mon YYYY"` labels via
`new Date(month + " 1, " + year)`. -/
def monthNumber (cs : List Char) : Option Nat :=
  if cs = "Jan".data then some 1
  else if cs = "Feb".data then some 2
  else if cs = "Mar".data then some 3
  else if cs = "Apr".data then some 4
  else if cs = "May".data then some 5
  else if cs = "Jun".data then some 6
  else if cs = "Jul".data then some 7
  else if cs = "Aug".data then some 8
  else if cs = "Sep".data then some 9
  else if cs = "Oct".data then some 10
  else if cs = "Nov".data then some 11
  else if cs = "Dec".data then some 12
  else none

/-- Parsing a `"Mon YYYY"` month label to `(year, month)`, modelling
`monthStr.split(' ')` destructured to its first two components followed by
`new Date(month + " 1, " + year)`; an unparseable label yields `none`
(JS `Invalid Date`, excluded by the comparisons). -/
def parseMonthLabel (s : String) : Option (Nat × Nat) :=
  match splitOnChar ' ' s.data with
  | mon :: yr :: _ =>
    match monthNumber mon, digitsToNat yr with
    | some m, some y => some (y, m)
    | _, _ => none
  | _ => none

/-- Sentinel labels that the selection loops skip explicitly. -/
def isSentinel (s : String) : Bool :=
  decide (s = "Last 365 Days") || decide (s = "Last 730 Days")

/-- Character membership, modelling `String.prototype.includes` for a
single-character needle. -/
def containsChar (cs : List Char) (c : Char) : Bool := cs.contains c

/-- Leading digit run of a character list. -/
def takeDigits : List Char → List Char := List.takeWhile Char.isDigit

/-- Remainder after the leading digit run. -/
def dropDigits : List Char → List Char := List.dropWhile Char.isDigit

/-- First match of the pattern `\d+(?:\.\d+)?`, returned as the digit run
plus the remaining characters. -/
def findFirstNumber : List Char → Option (List Char × List Char)
  | [] => none
  | c :: cs =>
    if c.isDigit then some (takeDigits (c :: cs), dropDigits (c :: cs))
    else findFirstNumber cs

/-- Numeric value of the first `\d+(?:\.\d+)?` match in a string, modelling
`value.match(/(\d+(?:\.\d+)?)/)` followed by `parseFloat`. -/
def parseFirstNumber (s : String) : Option Rat :=
  match findFirstNumber s.data with
  | none => none
  | some (intPart, rest) =>
    match rest with
    | '.' :: r =>
      let frac := takeDigits r
      if frac = [] then some (digitsVal intPart : Rat)
      else some ((digitsVal intPart : Rat) + mkRat (digitsVal frac) (10 ^ frac.length))
    | _ => some (digitsVal intPart : Rat)

/-- Embedding of `extractPercentage` (`data-loader.ts` lines 741-745): a
missing, empty or literally unavailable string parses to 0, otherwise the
first numeric token divided by 100. -/
def extractPercentage (value : Option String) : Rat :=
  match value with
  | none => 0
  | some s =>
    if s = "" ∨ s = "Unavailable" then 0
    else
      match parseFirstNumber s with
      | none => 0
      | some v => v / 100

/-- Value stored inside a nested channel row: a number or a JSON `null`. -/
inductive NCell where
  | num (v : Rat)
  | null
deriving DecidableEq, Repr

/-- Value stored at one position of a channel (`Y_values[c][i]`): a number, a
JSON `null`, or — in the nested layout of the primary section — itself an
array of values.  An out-of-bounds access (JS `undefined`) is `Option.none`
at the access site, never a `Cell`. -/
inductive Cell where
  | num (v : Rat)
  | null
  | arr (vs : List NCell)
deriving DecidableEq, Repr

/-- One channel: the parallel numeric series `Y_values[c]`. -/
abbrev Channel := List Cell

/-- Category block of a reference dataset section: a list of date labels
(`X_values`) parallel to one or more channels (`Y_values`). -/
structure CategoryBlock where
  xvals : List String
  yvals : List Channel
deriving DecidableEq, Repr

/-- Reference dataset (`NeighborhoodData` in `types/index.ts`).  Each section
is its `Category` mapping, modelled as an association list whose order is the
JS `Object.keys` enumeration order.  The two future sections are optional
because the source reads them with `?.`; `Market KPI` is validated to exist
by the loader and accessed without `?.`. -/
structure NeighborhoodData where
  marketKPI : List (String × CategoryBlock)
  futurePercentilePrices : Option (List (String × CategoryBlock))
  futureOccNewCanc : Option (List (String × CategoryBlock))
deriving DecidableEq, Repr

/-- Association-list lookup modelling a JS object property read
(`section.Category[categoryId]`). -/
def lookupCategory (cats : List (String × CategoryBlock)) (k : String) :
    Option CategoryBlock :=
  (cats.find? (fun p => decide (p.1 = k))).map (fun p => p.2)

/-- Entity record (`Listing` in `types/index.ts`), restricted to the fields
the computation engine reads.  Fields typed `number`/`string` in TS but
checked against `undefined`/`null`/falsiness by the code are `Option`s. -/
structure Listing where
  id : String
  group : Option String
  city_name : Option String
  no_of_bedrooms : Int
  mpi_next_7 : Option Rat
  mpi_next_30 : Option Rat
  mpi_next_60 : Option Rat
  mpi_next_90 : Option Rat
  mpi_next_120 : Option Rat
  adjusted_occupancy_past_30 : Option String
  adjusted_occupancy_past_90 : Option String
deriving DecidableEq, Repr

/-- Container for the listings collection (`ListingsData`). -/
structure ListingsData where
  listings : List Listing
deriving DecidableEq, Repr

/-- The five fixed timeframes (`type Timeframe = 7 | 30 | 60 | 90 | 120`). -/
inductive Timeframe where
  | t7
  | t30
  | t60
  | t90
  | t120
deriving DecidableEq, Repr

/-- Day count of a timeframe. -/
def Timeframe.days : Timeframe → Nat
  | .t7 => 7
  | .t30 => 30
  | .t60 => 60
  | .t90 => 90
  | .t120 => 120

/-- The five timeframes in the order the source iterates them. -/
def allTimeframes : List Timeframe := [.t7, .t30, .t60, .t90, .t120]

/-- Precomputed MPI field for a timeframe (`listing["mpi_next_" + t]`). -/
def Listing.mpiNext (l : Listing) : Timeframe → Option Rat
  | .t7 => l.mpi_next_7
  | .t30 => l.mpi_next_30
  | .t60 => l.mpi_next_60
  | .t90 => l.mpi_next_90
  | .t120 => l.mpi_next_120

/-- JS `a || b` for possibly-absent strings: `undefined`, `null` and the
empty string are falsy. -/
def jsOrString (o : Option String) (dflt : String) : String :=
  match o with
  | none => dflt
  | some s => if s = "" then dflt else s

/-- Embedding of `getDateRangeForTimeframe` (`mpi-calculator.ts` lines
22-48): `start = today`, `end = today + (timeframe - 1)` days.  The source
reads the clock (`new Date()`); the embedding takes `today` as a parameter. -/
def getDateRangeForTimeframe (today : Date) (t : Timeframe) : Date × Date :=
  (today, addDays today (t.days - 1))

/-- Embedding of `matchListingToNeighborhood` (`data-loader.ts` lines
524-533): the first `Market KPI` category key, or `null` when there is
none.  The listing argument is unused by the source as well. -/
def matchListingToNeighborhood (_listing : Listing) (nd : NeighborhoodData) :
    Option String :=
  match nd.marketKPI with
  | [] => none
  | (k, _) :: _ => some k

/-- Embedding of `calculatePropertyOccupancy` (`data-loader.ts` lines
721-739): the span length of the range selects which historical occupancy
string is parsed. -/
def calculatePropertyOccupancy (listing : Listing) (startDate endDate : Date) :
    Rat :=
  let daysDiff := daysBetween startDate endDate
  if daysDiff ≤ 30 then extractPercentage listing.adjusted_occupancy_past_30
  else if daysDiff ≤ 90 then extractPercentage listing.adjusted_occupancy_past_90
  else extractPercentage listing.adjusted_occupancy_past_90

/-- One sampled value qualifies as realistic occupancy data
(`data-loader.ts` lines 557-560): defined, non-null, in `(0, 100]` and not
an integer.  A nested array cell never qualifies (in JS its comparison with
0 is `NaN`-false). -/
def realisticCell : Cell → Bool
  | .num v => decide (0 < v ∧ v ≤ 100 ∧ v.den ≠ 1)
  | .null => false
  | .arr _ => false

/-- Category scan condition of `calculateMarketOccupancy` (`data-loader.ts`
lines 552-571): the first channel exists and at least 5 of its first 20
values are realistic. -/
def isRealisticCategory (blk : CategoryBlock) : Bool :=
  match blk.yvals.head? with
  | none => false
  | some ch => decide (5 ≤ ((ch.take 20).filter realisticCell).length)

/-- Section of the reference dataset a category block was located in. -/
inductive SectionName where
  | futureOccNewCanc
  | futurePercentilePrices
deriving DecidableEq, Repr

/-- Category-location phase of `calculateMarketOccupancy` (`data-loader.ts`
lines 541-587): scan all `Future Occ/New/Canc` categories for the first one
with realistic occupancy data; when none qualifies fall back to
`Future Percentile Prices` at the requested id; when the primary section is
absent the initial `?.` lookup is `undefined` and the function will return 0
(`if (!category) return 0`). -/
def locateCategory (nd : NeighborhoodData) (categoryId : String) :
    Option (SectionName × String × CategoryBlock) :=
  match nd.futureOccNewCanc with
  | none => none
  | some cats =>
    match cats.find? (fun p => isRealisticCategory p.2) with
    | some (cid, blk) => some (.futureOccNewCanc, cid, blk)
    | none =>
      match nd.futurePercentilePrices with
      | none => none
      | some fcats =>
        match lookupCategory fcats categoryId with
        | none => none
        | some blk => some (.futurePercentilePrices, categoryId, blk)

/-- Daily-mode inclusion test (`data-loader.ts` lines 596-611): skip the
sentinel labels, parse the label as a date and keep it when it lies in
`[startDate, endDate]`. -/
def dailyInclude (startDate endDate : Date) (lbl : String) : Bool :=
  if isSentinel lbl then false
  else
    match parseDailyDate lbl with
    | none => false
    | some d => dateLE startDate d && dateLE d endDate

/-- Monthly-mode inclusion test (`data-loader.ts` lines 612-630): skip the
sentinel labels, parse `"Mon YYYY"` to the first of the month, compute the
month's last day, and keep the index when the month overlaps
`[startDate, endDate]` (`monthDate <= endDate && monthEnd >= startDate`). -/
def monthlyInclude (startDate endDate : Date) (lbl : String) : Bool :=
  if isSentinel lbl then false
  else
    match parseMonthLabel lbl with
    | none => false
    | some (y, m) =>
      dateLE ⟨y, m, 1⟩ endDate && dateLE startDate ⟨y, m, daysInMonth y m⟩

/-- Index collector: positions of the labels satisfying the inclusion test,
in order, starting at position `n`. -/
def selectIdxGo (keep : String → Bool) : Nat → List String → List Nat
  | _, [] => []
  | n, x :: xs =>
    if keep x then n :: selectIdxGo keep (n + 1) xs
    else selectIdxGo keep (n + 1) xs

/-- Daily-layout detection (`data-loader.ts` line 594):
`X_values.length > 0 && X_values[0].includes('-')`. -/
def hasDailyData (xvals : List String) : Bool :=
  match xvals.head? with
  | none => false
  | some x => containsChar x.data '-'

/-- Relevant-index selection of `calculateMarketOccupancy` (`data-loader.ts`
lines 591-630). -/
def selectIndices (xvals : List String) (startDate endDate : Date) : List Nat :=
  if hasDailyData xvals then selectIdxGo (dailyInclude startDate endDate) 0 xvals
  else selectIdxGo (monthlyInclude startDate endDate) 0 xvals

/-- Channel-scan sample condition `hasData` of the `Future Percentile
Prices` path (`data-loader.ts` line 668): some sampled value is neither 0,
`undefined` nor `null` (a nested array compares unequal to all three). -/
def sampleHasData (sample : List Cell) : Bool :=
  sample.any (fun c =>
    match c with
    | .num v => decide (v ≠ 0)
    | .null => false
    | .arr _ => true)

/-- Average of a channel-scan sample (`data-loader.ts` line 673): the sum of
the non-null, non-undefined values divided by the full sample length.  When
the sample holds a nested array the JS sum is not a number (string
concatenation then `NaN`), so no average exists and the `(0, 100]` test
fails; this is modelled by `none`. -/
def sampleAverage (sample : List Cell) : Option Rat :=
  if sample.any (fun c => match c with | .arr _ => true | _ => false) then none
  else
    some (((sample.filterMap (fun c => match c with
      | .num v => some v
      | _ => none)).foldl (· + ·) 0) / (sample.length : Rat))

/-- Occupancy-channel choice for the `Future Percentile Prices` section
(`data-loader.ts` lines 663-682): the first channel that is long enough,
has data, and whose 3-value sample starting at the first relevant index
averages into `(0, 100]`; channel 0 when none qualifies. -/
def pickFppIndex (yvals : List Channel) (firstIndex : Nat) : Nat :=
  (yvals.findIdx? (fun ch =>
    decide (firstIndex < ch.length) &&
      (sampleHasData ((ch.drop firstIndex).take 3) &&
        match sampleAverage ((ch.drop firstIndex).take 3) with
        | none => false
        | some a => decide (0 < a ∧ a ≤ 100))) ).getD 0

/-- Sample filter of the averaging loop (`data-loader.ts` lines 708-712):
`occupancyValue !== undefined && occupancyValue !== 0` keeps the value,
which then contributes `occupancyValue / 100`.  A JSON `null` passes this
check and contributes `null / 100 = 0`.  A nested array cell read through
the flat branch lies outside the modelled data domain (its JS contribution
would be `NaN`); it is modelled as skipped. -/
def cellContribution : Option Cell → Option Rat
  | none => none
  | some (.num v) => if v = 0 then none else some (v / 100)
  | some .null => some 0
  | some (.arr _) => none

/-- Sample filter for a value read out of a nested channel row. -/
def ncellContribution : Option NCell → Option Rat
  | none => none
  | some (.num v) => if v = 0 then none else some (v / 100)
  | some .null => some 0

/-- Per-index value read of the averaging loop (`data-loader.ts` lines
693-706): in the primary section a channel whose first element is an array
is read through the extra index hop (`Y_values[occ][0][index]`), otherwise
the read is flat (`Y_values[occ][index]`). -/
def readContribution (sec : SectionName) (yvals : List Channel)
    (occIdx index : Nat) : Option Rat :=
  match yvals.get? occIdx with
  | none => none
  | some ch =>
    match sec, ch.head? with
    | .futureOccNewCanc, some (.arr vs) => ncellContribution (vs.get? index)
    | _, _ => cellContribution (ch.get? index)

/-- Accumulation loop of `calculateMarketOccupancy` (`data-loader.ts` lines
687-713): running total of the retained contributions and their count. -/
def occLoop (read : Nat → Option Rat) (idxs : List Nat) : Rat × Nat :=
  idxs.foldl (fun acc i =>
    match read i with
    | none => acc
    | some contrib => (acc.1 + contrib, acc.2 + 1)) (0, 0)

/-- Post-location phase of `calculateMarketOccupancy` (`data-loader.ts`
lines 589-718): select the relevant indices, pick the occupancy channel,
average the retained values, and return 0 when nothing qualifies. -/
def marketOccupancyOnBlock (sec : SectionName) (blk : CategoryBlock)
    (startDate endDate : Date) : Rat :=
  let idxs := selectIndices blk.xvals startDate endDate
  match idxs with
  | [] => 0
  | i0 :: _ =>
    let occIdx :=
      match sec with
      | .futureOccNewCanc => 0
      | .futurePercentilePrices => pickFppIndex blk.yvals i0
    let r := occLoop (readContribution sec blk.yvals occIdx) idxs
    if 0 < r.2 then r.1 / (r.2 : Rat) else 0

/-- Embedding of `calculateMarketOccupancy` (`data-loader.ts` lines
535-719): locate a category block, then average its occupancy channel over
the requested range; 0 when no block is available. -/
def calculateMarketOccupancy (nd : NeighborhoodData) (categoryId : String)
    (startDate endDate : Date) : Rat :=
  match locateCategory nd categoryId with
  | none => 0
  | some (sec, _, blk) => marketOccupancyOnBlock sec blk startDate endDate

/-- Tier that produced a single (listing, timeframe) resolution. -/
inductive Tier where
  | precomputed
  | derived
  | unavailable
deriving DecidableEq, Repr

/-- Validity test of the precomputed value (`mpi-calculator.ts` line 81 and
line 405): defined, non-null and `>= 0`. -/
def precomputedValid (l : Listing) (t : Timeframe) : Bool :=
  match l.mpiNext t with
  | none => false
  | some v => decide (0 ≤ v)

/-- Reference-data provider boundary: one `loadNeighborhoodData(listing.id)`
call is made per (listing, timeframe) resolution, and each call may fail
independently (modelling a transient fetch error, which the source catches). -/
def NeighborhoodProvider : Type :=
  String → Timeframe → Except Unit NeighborhoodData

/-- Derived-calculation path of `getMPI` (`mpi-calculator.ts` lines 85-114),
instrumented with the tier that produced the value: a provider failure is
caught and yields 0 (unavailable); a missing category or a non-positive
market occupancy also yields 0 (unavailable); otherwise the ratio of the
property occupancy to the market occupancy, scaled by 100 (derived). -/
def resolveMPIDerived (today : Date) (provider : NeighborhoodProvider)
    (l : Listing) (t : Timeframe) : Rat × Tier :=
  let range := getDateRangeForTimeframe today t
  match provider l.id t with
  | .error _ => (0, .unavailable)
  | .ok nd =>
    match matchListingToNeighborhood l nd with
    | none => (0, .unavailable)
    | some categoryId =>
      let propertyOccupancy := calculatePropertyOccupancy l range.1 range.2
      let marketOccupancy := calculateMarketOccupancy nd categoryId range.1 range.2
      if 0 < marketOccupancy then
        ((propertyOccupancy / marketOccupancy) * 100, .derived)
      else (0, .unavailable)

/-- Embedding of the per-timeframe resolver `getMPI` inside
`calculateListingMPI` (`mpi-calculator.ts` lines 74-115), instrumented with
the tier that produced the value: a valid precomputed value is scaled by
100, otherwise the derived path of `resolveMPIDerived` runs.  The returned
number is the first component; the source returns only that number. -/
def resolveMPI (today : Date) (provider : NeighborhoodProvider) (l : Listing)
    (t : Timeframe) : Rat × Tier :=
  match l.mpiNext t with
  | some v =>
    if 0 ≤ v then (v * 100, .precomputed)
    else resolveMPIDerived today provider l t
  | none => resolveMPIDerived today provider l t

/-- Per-listing result (`CalculatedMPI` in `types/index.ts`). -/
structure CalculatedMPI where
  listingId : String
  group : String
  mpi_7 : Rat
  mpi_30 : Rat
  mpi_60 : Rat
  mpi_90 : Rat
  mpi_120 : Rat
deriving DecidableEq, Repr

/-- Embedding of `calculateListingMPI` (`mpi-calculator.ts` lines 71-134):
the five per-timeframe resolutions of one listing. -/
def calculateListingMPI (today : Date) (provider : NeighborhoodProvider)
    (l : Listing) : CalculatedMPI :=
  { listingId := l.id
    group := jsOrString l.group "Unknown"
    mpi_7 := (resolveMPI today provider l .t7).1
    mpi_30 := (resolveMPI today provider l .t30).1
    mpi_60 := (resolveMPI today provider l .t60).1
    mpi_90 := (resolveMPI today provider l .t90).1
    mpi_120 := (resolveMPI today provider l .t120).1 }

/-- Embedding of `getGroupKey` (`mpi-calculator.ts` lines 53-66). -/
def getGroupKey (listing : Listing) (grouping : String) : String :=
  if grouping = "bedrooms" then
    toString listing.no_of_bedrooms ++ " Bedroom"
      ++ (if listing.no_of_bedrooms ≠ 1 then "s" else "")
  else if grouping = "city" then jsOrString listing.city_name "Unknown City"
  else if grouping = "city-bedrooms" then
    jsOrString listing.city_name "Unknown City" ++ "-"
      ++ toString listing.no_of_bedrooms ++ "BR"
  else jsOrString listing.group "Unknown"

/-- Group summary (`MPISummary` in `types/index.ts`). -/
structure MPISummary where
  group : String
  mpi_7 : Rat
  mpi_30 : Rat
  mpi_60 : Rat
  mpi_90 : Rat
  mpi_120 : Rat
  listingCount : Nat
deriving DecidableEq, Repr

/-- Appending a value under a key of an insertion-ordered association list,
modelling the `Map` update of `calculateGroupAverages` (`mpi-calculator.ts`
lines 146-151). -/
def insertGroup (m : List (String × List CalculatedMPI)) (k : String)
    (v : CalculatedMPI) : List (String × List CalculatedMPI) :=
  match m with
  | [] => [(k, [v])]
  | (k', vs) :: rest =>
    if k' = k then (k', vs ++ [v]) :: rest else (k', vs) :: insertGroup rest k v

/-- Group key resolved through the original listing: `calculateGroupAverages`
looks each per-listing result up by id in the listings collection and skips
results whose listing is not found. -/
def resolvedKey (ld : ListingsData) (grouping : String) (m : CalculatedMPI) :
    Option String :=
  (ld.listings.find? (fun l => decide (l.id = m.listingId))).map
    (fun l => getGroupKey l grouping)

/-- Grouping pass of `calculateGroupAverages` (`mpi-calculator.ts` lines
140-152): a `Map` from group key to the member results, in insertion order. -/
def buildGroupMap (ld : ListingsData) (grouping : String)
    (mpis : List CalculatedMPI) : List (String × List CalculatedMPI) :=
  mpis.foldl (fun m mpi =>
    match resolvedKey ld grouping mpi with
    | none => m
    | some k => insertGroup m k mpi) []

/-- JS `Math.round(x * 100) / 100` (round half toward positive infinity to
two decimal places), on exact rationals. -/
def round2 (x : Rat) : Rat := ((x * 100 + 1/2).floor : Rat) / 100

/-- Summary row of one group (`mpi-calculator.ts` lines 155-171): per
timeframe, the members' values are summed with `reduce` and divided by the
member count, then rounded to 2 decimal places. -/
def mkSummary (groupName : String) (ms : List CalculatedMPI) : MPISummary :=
  { group := groupName
    mpi_7 := round2 ((ms.foldl (fun acc m => acc + m.mpi_7) 0) / (ms.length : Rat))
    mpi_30 := round2 ((ms.foldl (fun acc m => acc + m.mpi_30) 0) / (ms.length : Rat))
    mpi_60 := round2 ((ms.foldl (fun acc m => acc + m.mpi_60) 0) / (ms.length : Rat))
    mpi_90 := round2 ((ms.foldl (fun acc m => acc + m.mpi_90) 0) / (ms.length : Rat))
    mpi_120 := round2 ((ms.foldl (fun acc m => acc + m.mpi_120) 0) / (ms.length : Rat))
    listingCount := ms.length }

/-- Lexicographic code-point order on character lists, modelling the
`localeCompare` comparator of the final sort. -/
def charListLE : List Char → List Char → Bool
  | [], _ => true
  | _ :: _, [] => false
  | x :: xs, y :: ys =>
    if x.toNat < y.toNat then true
    else if y.toNat < x.toNat then false
    else charListLE xs ys

/-- Sort order of the group summaries: ascending group name. -/
def summaryLE (a b : MPISummary) : Prop :=
  charListLE a.group.data b.group.data = true

instance : DecidableRel summaryLE := fun a b =>
  inferInstanceAs (Decidable (charListLE a.group.data b.group.data = true))

/-- Embedding of `calculateGroupAverages` (`mpi-calculator.ts` lines
139-174): group the per-listing results, summarise each group, and sort the
summaries by group name. -/
def calculateGroupAverages (mpis : List CalculatedMPI) (grouping : String)
    (ld : ListingsData) : List MPISummary :=
  List.insertionSort summaryLE
    ((buildGroupMap ld grouping mpis).map (fun p => mkSummary p.1 p.2))

/-- Observability counters (`calculationStats` of `calculateMPISummaries`). -/
structure CalculationStats where
  existingMPIUsed : Nat
  neighborhoodCalculated : Nat
  noDataAvailable : Nat
  totalListings : Nat
deriving DecidableEq, Repr

/-- Per-listing counter pass of `calculateMPISummaries` (`mpi-calculator.ts`
lines 399-413): for each timeframe, a valid precomputed value increments the
first counter, any other case increments the second (the source comments
this as a simplified check that assumes no data was available whenever no
existing MPI was). -/
def countListingStats (acc : Nat × Nat) (l : Listing) : Nat × Nat :=
  allTimeframes.foldl (fun a t =>
    if precomputedValid l t then (a.1 + 1, a.2) else (a.1, a.2 + 1)) acc

/-- Counter pass over the whole listings collection. -/
def countAllStats (ls : List Listing) : Nat × Nat :=
  ls.foldl countListingStats (0, 0)

/-- Result record of `calculateMPISummaries`. -/
structure MPISummariesResult where
  summaries : List MPISummary
  calculatedMPIs : List CalculatedMPI
  calculationStats : CalculationStats
deriving DecidableEq, Repr

/-- Embedding of `calculateMPISummaries` (`mpi-calculator.ts` lines
376-437): resolve every listing, count the tiers with the simplified
per-listing check (the `neighborhoodCalculated` counter is declared and
never incremented), and aggregate the group summaries. -/
def calculateMPISummaries (today : Date) (provider : NeighborhoodProvider)
    (ld : ListingsData) (grouping : String) : MPISummariesResult :=
  let mpis := ld.listings.map (calculateListingMPI today provider)
  let counts := countAllStats ld.listings
  { summaries := calculateGroupAverages mpis grouping ld
    calculatedMPIs := mpis
    calculationStats :=
      { existingMPIUsed := counts.1
        neighborhoodCalculated := 0
        noDataAvailable := counts.2
        totalListings := ld.listings.length } }

/-- Calculation method tag of the comparison mode
(`'api' | 'neighborhood' | 'none'`). -/
inductive Method where
  | api
  | neighborhood
  | noneUsed
deriving DecidableEq, Repr

/-- Embedding of `getCalculationMethod` (`mpi-calculator.ts` lines 239-243):
the api value is always a number here, so the first branch reduces to
`apiValue >= 0`. -/
def getCalculationMethod (apiValue calculatedValue : Rat) : Method :=
  if 0 ≤ apiValue then .api
  else if 0 < calculatedValue then .neighborhood
  else .noneUsed

/-- API-side value of the comparison mode (`mpi-calculator.ts` lines
229-233): the precomputed value coalesced to 0 (`?? 0`), scaled by 100. -/
def apiMPI (l : Listing) (t : Timeframe) : Rat :=
  ((l.mpiNext t).getD 0) * 100

/-- Embedding of the per-timeframe body of
`calculateListingMPIFromNeighborhood` (`mpi-calculator.ts` lines 180-205):
the derived path only, with a shared dataset instead of a provider. -/
def getMPIFromNeighborhood (today : Date) (nd : NeighborhoodData)
    (l : Listing) (t : Timeframe) : Rat :=
  let range := getDateRangeForTimeframe today t
  match matchListingToNeighborhood l nd with
  | none => 0
  | some categoryId =>
    let propertyOccupancy := calculatePropertyOccupancy l range.1 range.2
    let marketOccupancy := calculateMarketOccupancy nd categoryId range.1 range.2
    if 0 < marketOccupancy then (propertyOccupancy / marketOccupancy) * 100
    else 0

/-- Comparison row (`MPIComparison` in `types/index.ts`), with the five
timeframes indexed by `Timeframe` instead of five flat fields per column. -/
structure MPIComparison where
  listingId : String
  group : String
  api_mpi : Timeframe → Rat
  calculated_mpi : Timeframe → Rat
  calculation_method : Timeframe → Method

/-- Embedding of `calculateListingMPIComparison` (`mpi-calculator.ts` lines
227-264). -/
def calculateListingMPIComparison (today : Date) (nd : NeighborhoodData)
    (l : Listing) : MPIComparison :=
  { listingId := l.id
    group := jsOrString l.group "Unknown"
    api_mpi := fun t => apiMPI l t
    calculated_mpi := fun t => getMPIFromNeighborhood today nd l t
    calculation_method := fun t =>
      getCalculationMethod (apiMPI l t) (getMPIFromNeighborhood today nd l t) }

/-- Modelled from the spec (for comparison only, not from the source):
claim-side sample filter in which a sample whose value is "missing or
exactly 0" is excluded — both an out-of-bounds `undefined` and a stored
JSON `null` count as missing. -/
def claimCellRetained : Option Cell → Option Rat
  | none => none
  | some (.num v) => if v = 0 then none else some (v / 100)
  | some .null => none
  | some (.arr _) => none

/-- Modelled from the spec (for comparison only): claim-side filter for a
nested-row read. -/
def claimNCellRetained : Option NCell → Option Rat
  | none => none
  | some (.num v) => if v = 0 then none else some (v / 100)
  | some .null => none

/-- Modelled from the spec (for comparison only): claim-side per-index read,
with the same channel choice and layout handling as `readContribution`. -/
def claimReadContribution (sec : SectionName) (yvals : List Channel)
    (occIdx index : Nat) : Option Rat :=
  match yvals.get? occIdx with
  | none => none
  | some ch =>
    match sec, ch.head? with
    | .futureOccNewCanc, some (.arr vs) => claimNCellRetained (vs.get? index)
    | _, _ => claimCellRetained (ch.get? index)

/-- Modelled from the spec (for comparison only): the average claimed for
`averageOccupancy` by C3 — mean of the retained samples divided by 100, with
0 when no index is in range or no sample survives the filter. -/
def claimAverageOnBlock (sec : SectionName) (blk : CategoryBlock)
    (startDate endDate : Date) : Rat :=
  let idxs := selectIndices blk.xvals startDate endDate
  match idxs with
  | [] => 0
  | i0 :: _ =>
    let occIdx :=
      match sec with
      | .futureOccNewCanc => 0
      | .futurePercentilePrices => pickFppIndex blk.yvals i0
    let cs := idxs.filterMap (claimReadContribution sec blk.yvals occIdx)
    if cs.length = 0 then 0 else cs.sum / (cs.length : Rat)

/-- Mean-form restatement of the averaging phase (the amended C3 claim):
the mean of the retained per-index contributions of `readContribution`
(undefined and zero samples dropped, null samples retained as 0), or 0 when
nothing is retained or no index is in range. -/
def amendedAverageOnBlock (sec : SectionName) (blk : CategoryBlock)
    (startDate endDate : Date) : Rat :=
  let idxs := selectIndices blk.xvals startDate endDate
  match idxs with
  | [] => 0
  | i0 :: _ =>
    let occIdx :=
      match sec with
      | .futureOccNewCanc => 0
      | .futurePercentilePrices => pickFppIndex blk.yvals i0
    let cs := idxs.filterMap (readContribution sec blk.yvals occIdx)
    if cs.length = 0 then 0 else cs.sum / (cs.length : Rat)

/-- Number of (listing, timeframe) resolutions with a valid precomputed
value. -/
def countPrecomputedResolutions (ls : List Listing) : Nat :=
  (ls.map (fun l => (allTimeframes.filter (fun t => precomputedValid l t)).length)).sum

/-- Number of (listing, timeframe) resolutions without a valid precomputed
value. -/
def countNonPrecomputedResolutions (ls : List Listing) : Nat :=
  (ls.map (fun l => (allTimeframes.filter (fun t => ! precomputedValid l t)).length)).sum

/-- Member list stored under a key of the grouping map (empty when the key
is absent). -/
def lookupGroup : List (String × List CalculatedMPI) → String → List CalculatedMPI
  | [], _ => []
  | p :: rest, k => if p.1 = k then p.2 else lookupGroup rest k

/-- Per-listing results whose resolved group key is `k`. -/
def groupMembers (ld : ListingsData) (grouping : String)
    (mpis : List CalculatedMPI) (k : String) : List CalculatedMPI :=
  mpis.filter (fun x => decide (resolvedKey ld grouping x = some k))

/-- Listing with every optional field absent, used to build the concrete
test records below. -/
def baseListing : Listing :=
  { id := ""
    group := none
    city_name := none
    no_of_bedrooms := 1
    mpi_next_7 := none
    mpi_next_30 := none
    mpi_next_60 := none
    mpi_next_90 := none
    mpi_next_120 := none
    adjusted_occupancy_past_30 := none
    adjusted_occupancy_past_90 := none }

/-- Reference date 2025-08-08 used by the concrete evaluations (the spec's
own daily-mode test starts the 7-day window there). -/
def refToday : Date := ⟨2025, 8, 8⟩

/-- Category block of the spec's daily-mode test: dates 2025-08-07 through
2025-08-14 with occupancy channel [75, 80, 75, 70, 85, 90, 85, 80]. -/
def dailyTestBlock : CategoryBlock :=
  { xvals := ["2025-08-07", "2025-08-08", "2025-08-09", "2025-08-10",
              "2025-08-11", "2025-08-12", "2025-08-13", "2025-08-14"]
    yvals := [[.num 75, .num 80, .num 75, .num 70, .num 85, .num 90, .num 85, .num 80]] }

/-- Primary-section block whose first-channel samples are round integers:
it never qualifies as realistic occupancy data. -/
def roundNumberBlock : CategoryBlock :=
  { xvals := ["2025-08-08", "2025-08-09", "2025-08-10", "2025-08-11", "2025-08-12"]
    yvals := [[.num 50, .num 100, .num 50, .num 100, .num 50]] }

/-- Secondary-section block distinct from `roundNumberBlock`. -/
def fppFallbackBlock : CategoryBlock :=
  { xvals := ["2025-08-08", "2025-08-09"]
    yvals := [[.num 60, .num 70]] }

/-- Dataset for the C4 counterexample: the primary section holds the
requested category "5" but no category qualifies as realistic, and the
secondary section also holds "5". -/
def cexLocatorND : NeighborhoodData :=
  { marketKPI := [("5", roundNumberBlock)]
    futurePercentilePrices := some [("5", fppFallbackBlock)]
    futureOccNewCanc := some [("5", roundNumberBlock)] }

/-- Block for the C3 counterexample: two in-range days whose channel holds
one number and one JSON `null`. -/
def nullSampleBlock : CategoryBlock :=
  { xvals := ["2025-08-08", "2025-08-09"]
    yvals := [[.num 80, .null]] }

/-- Primary-section block with five non-integer occupancy values, realistic
under the locator heuristic and fully inside the 7-day window of
`refToday`. -/
def realisticBlock : CategoryBlock :=
  { xvals := ["2025-08-08", "2025-08-09", "2025-08-10", "2025-08-11", "2025-08-12"]
    yvals := [[.num (mkRat 151 2), .num (mkRat 161 2), .num (mkRat 151 2),
               .num (mkRat 141 2), .num (mkRat 171 2)]] }

/-- Dataset whose derived calculation succeeds for the 7-day window of
`refToday`. -/
def derivableND : NeighborhoodData :=
  { marketKPI := [("0", realisticBlock)]
    futurePercentilePrices := none
    futureOccNewCanc := some [("0", realisticBlock)] }

/-- Listing with no precomputed values and an 85 % short-window occupancy. -/
def derivableListing : Listing :=
  { baseListing with
      id := "L1"
      adjusted_occupancy_past_30 := some "85 %"
      adjusted_occupancy_past_90 := some "82 %" }

/-- Provider that always succeeds with `derivableND`. -/
def derivableProvider : NeighborhoodProvider := fun _ _ => .ok derivableND

/-- Collection holding only `derivableListing`. -/
def derivableLD : ListingsData := { listings := [derivableListing] }

/-- Provider that always fails (transient fetch error on every call). -/
def failingProvider : NeighborhoodProvider := fun _ _ => .error ()

/-- Listing whose 7-day precomputed value is exactly 0 (valid data). -/
def zeroMPIListing : Listing :=
  { baseListing with id := "Z1", mpi_next_7 := some 0 }

/-- Three listings for the grouping test: two in Denver, one in Miami, with
precomputed values for every timeframe. -/
def denverListing1 : Listing :=
  { baseListing with
      id := "D1", city_name := some "Denver"
      mpi_next_7 := some 1, mpi_next_30 := some 1, mpi_next_60 := some 1
      mpi_next_90 := some 1, mpi_next_120 := some 1 }

/-- Second Denver listing. -/
def denverListing2 : Listing :=
  { baseListing with
      id := "D2", city_name := some "Denver"
      mpi_next_7 := some (mkRat 11 10), mpi_next_30 := some (mkRat 11 10)
      mpi_next_60 := some (mkRat 11 10), mpi_next_90 := some (mkRat 11 10)
      mpi_next_120 := some (mkRat 11 10) }

/-- Miami listing. -/
def miamiListing : Listing :=
  { baseListing with
      id := "M1", city_name := some "Miami"
      mpi_next_7 := some (mkRat 9 10), mpi_next_30 := some (mkRat 9 10)
      mpi_next_60 := some (mkRat 9 10), mpi_next_90 := some (mkRat 9 10)
      mpi_next_120 := some (mkRat 9 10) }

/-- Grouping-test collection. -/
def groupingLD : ListingsData :=
  { listings := [denverListing1, denverListing2, miamiListing] }

/-- Dataset with no recognized data at all (empty primary category map and
no secondary section): every derived calculation yields market occupancy 0. -/
def emptyND : NeighborhoodData :=
  { marketKPI := [("0", roundNumberBlock)]
    futurePercentilePrices := none
    futureOccNewCanc := some [] }

/-- Provider that always succeeds with `emptyND`. -/
def emptyNDProvider : NeighborhoodProvider := fun _ _ => .ok emptyND

instance : IsTotal MPISummary summaryLE where
  total a b := by
    have h : ∀ xs ys : List Char, charListLE xs ys = true ∨ charListLE ys xs = true := by
      intro xs
      induction xs with
      | nil => intro ys; left; rfl
      | cons x xs ih =>
        intro ys
        cases ys with
        | nil => right; rfl
        | cons y ys =>
          simp only [charListLE]
          by_cases h1 : x.toNat < y.toNat
          · left; simp [h1]
          · by_cases h2 : y.toNat < x.toNat
            · right; simp [h2]
            · simpa [h1, h2] using ih ys
    exact h a.group.data b.group.data

instance : IsTrans MPISummary summaryLE where
  trans a b c hab hbc := by
    have key : ∀ (u v : Char) (us vs : List Char),
        charListLE (u :: us) (v :: vs) = true ↔
          (u.toNat < v.toNat ∨
            (¬ u.toNat < v.toNat ∧ ¬ v.toNat < u.toNat ∧ charListLE us vs = true)) := by
      intro u v us vs
      simp only [charListLE]
      split_ifs with h1 h2
      · simp [h1]
      · simp [h1, h2]
      · simp [h1, h2]
    have main : ∀ (xs ys zs : List Char), charListLE xs ys = true →
        charListLE ys zs = true → charListLE xs zs = true := by
      intro xs
      induction xs with
      | nil => intro ys zs _ _; rfl
      | cons x xs ih =>
        intro ys zs h1 h2
        cases ys with
        | nil => simp [charListLE] at h1
        | cons y ys =>
          cases zs with
          | nil => simp [charListLE] at h2
          | cons z zs =>
            rw [key] at h1 h2 ⊢
            rcases h1 with h1 | ⟨h1a, h1b, h1c⟩
            · rcases h2 with h2 | ⟨h2a, h2b, h2c⟩
              · left; omega
              · left; omega
            · rcases h2 with h2 | ⟨h2a, h2b, h2c⟩
              · left; omega
              · right; exact ⟨by omega, by omega, ih ys zs h1c h2c⟩
    exact main a.group.data b.group.data c.group.data hab hbc

/-- Per-listing counter step adds exactly five resolutions. -/
theorem countListingStats_sum (l : Listing) (acc : Nat × Nat) :
    (countListingStats acc l).1 + (countListingStats acc l).2 = acc.1 + acc.2 + 5 := by
  unfold countListingStats
  simp only [allTimeframes, List.foldl_cons, List.foldl_nil]
  split_ifs <;> simp <;> omega

/-- Counter pass over a listing collection adds five per listing. -/
theorem countAllStats_go_sum (ls : List Listing) :
    ∀ acc : Nat × Nat,
      (ls.foldl countListingStats acc).1 + (ls.foldl countListingStats acc).2
        = acc.1 + acc.2 + 5 * ls.length := by
  induction ls with
  | nil => intro acc; simp
  | cons l ls ih =>
    intro acc
    simp only [List.foldl_cons, List.length_cons]
    rw [ih (countListingStats acc l), countListingStats_sum]
    ring

/-- C1: for every listing and timeframe, when the precomputed field holds a
value ≥ 0 (including exactly 0) the resolver returns that value times 100
and the resolution is classified as the precomputed tier (both by the
resolver branch and by the statistics classification). -/
theorem c1_precomputed_used (today : Date) (provider : NeighborhoodProvider)
    (l : Listing) (t : Timeframe) (v : Rat) (hv : l.mpiNext t = some v)
    (h0 : 0 ≤ v) :
    resolveMPI today provider l t = (v * 100, Tier.precomputed) ∧
      precomputedValid l t = true := by
  constructor
  · unfold resolveMPI
    rw [hv]
    simp [h0]
  · unfold precomputedValid
    rw [hv]
    simp [h0]

/-- Witness for C1 at the boundary value 0: with a failing provider and a
listing whose 7-day precomputed value is exactly 0, the resolver returns 0
tagged precomputed. -/
theorem c1_precomputed_used_witness :
    resolveMPI refToday failingProvider zeroMPIListing .t7 = (0, Tier.precomputed) ∧
      precomputedValid zeroMPIListing .t7 = true := by
  have h := c1_precomputed_used refToday failingProvider zeroMPIListing .t7 0 rfl (le_refl 0)
  constructor
  · rw [h.1]
    norm_num
  · exact h.2

/-- C6: the three tier counters of every run sum to five resolutions per
listing. -/
theorem c6_stats_invariant (today : Date) (provider : NeighborhoodProvider)
    (ld : ListingsData) (grouping : String) :
    (calculateMPISummaries today provider ld grouping).calculationStats.existingMPIUsed
      + (calculateMPISummaries today provider ld grouping).calculationStats.neighborhoodCalculated
      + (calculateMPISummaries today provider ld grouping).calculationStats.noDataAvailable
      = (calculateMPISummaries today provider ld grouping).calculationStats.totalListings * 5 := by
  show (countAllStats ld.listings).1 + 0 + (countAllStats ld.listings).2
      = ld.listings.length * 5
  have h := countAllStats_go_sum ld.listings (0, 0)
  unfold countAllStats
  omega

/-- C7: in daily mode the 7-day window starting 2025-08-08 spans 2025-08-08
through 2025-08-14, selects exactly the indices 1..7 of the test block, and
averages their values divided by 100 to 113/140 (≈ 0.8071). -/
theorem c7_daily_mode_window :
    getDateRangeForTimeframe refToday .t7 = (⟨2025, 8, 8⟩, ⟨2025, 8, 14⟩) ∧
      selectIndices dailyTestBlock.xvals ⟨2025, 8, 8⟩ ⟨2025, 8, 14⟩
        = [1, 2, 3, 4, 5, 6, 7] ∧
      marketOccupancyOnBlock .futureOccNewCanc dailyTestBlock
        ⟨2025, 8, 8⟩ ⟨2025, 8, 14⟩ = 113 / 140 := by
  refine ⟨by decide, by decide, ?_⟩
  have hsel : selectIndices dailyTestBlock.xvals ⟨2025, 8, 8⟩ ⟨2025, 8, 14⟩
      = [1, 2, 3, 4, 5, 6, 7] := by decide
  unfold marketOccupancyOnBlock
  rw [hsel]
  simp only [occLoop, readContribution, cellContribution, dailyTestBlock,
    List.foldl_cons, List.foldl_nil, List.get?, List.head?]
  norm_num

/-- Membership characterization of the index collector. -/
theorem mem_selectIdxGo (keep : String → Bool) :
    ∀ (xs : List String) (n j : Nat),
      j ∈ selectIdxGo keep n xs ↔
        ∃ k, ∃ hk : k < xs.length, j = n + k ∧ keep (xs.get ⟨k, hk⟩) = true := by
  intro xs
  induction xs with
  | nil => intro n j; simp [selectIdxGo]
  | cons x xs ih =>
    intro n j
    simp only [selectIdxGo]
    by_cases hx : keep x = true
    · rw [if_pos hx]
      simp only [List.mem_cons]
      constructor
      · rintro (rfl | hj)
        · exact ⟨0, by simp, by omega, by simpa using hx⟩
        · obtain ⟨k, hk, hj', hkeep⟩ := (ih (n + 1) j).1 hj
          exact ⟨k + 1, by simpa using Nat.succ_lt_succ hk, by omega, by simpa using hkeep⟩
      · rintro ⟨k, hk, rfl, hkeep⟩
        cases k with
        | zero => left; omega
        | succ k =>
          right
          refine (ih (n + 1) (n + (k + 1))).2 ⟨k, by simpa using Nat.lt_of_succ_lt_succ hk, by omega, ?_⟩
          simpa using hkeep
    · rw [if_neg hx]
      constructor
      · intro hj
        obtain ⟨k, hk, rfl, hkeep⟩ := (ih (n + 1) _).1 hj
        exact ⟨k + 1, by simpa using Nat.succ_lt_succ hk, by omega, by simpa using hkeep⟩
      · rintro ⟨k, hk, rfl, hkeep⟩
        cases k with
        | zero =>
          exfalso
          apply hx
          simpa using hkeep
        | succ k =>
          refine (ih (n + 1) (n + (k + 1))).2 ⟨k, by simpa using Nat.lt_of_succ_lt_succ hk, by omega, ?_⟩
          simpa using hkeep

/-- C8: in monthly mode an index is included iff its label parses as a
month whose interval overlaps the requested range
(`monthStart <= endDate AND monthEnd >= startDate`); in particular a
category labeled "Aug 2024" is selected for the range
[2024-08-15, 2024-09-05] and not selected for [2024-09-10, 2024-09-20]. -/
theorem c8_monthly_mode :
    (∀ (xs : List String) (s e : Date) (j : Nat), hasDailyData xs = false →
      (j ∈ selectIndices xs s e ↔
        ∃ hj : j < xs.length, monthlyInclude s e (xs.get ⟨j, hj⟩) = true)) ∧
    (∀ (s e : Date) (lbl : String), isSentinel lbl = false →
      (monthlyInclude s e lbl = true ↔
        ∃ y m, parseMonthLabel lbl = some (y, m) ∧
          dateLE ⟨y, m, 1⟩ e = true ∧ dateLE s ⟨y, m, daysInMonth y m⟩ = true)) ∧
    parseMonthLabel "Aug 2024" = some (2024, 8) ∧
    daysInMonth 2024 8 = 31 ∧
    selectIndices ["Aug 2024"] ⟨2024, 8, 15⟩ ⟨2024, 9, 5⟩ = [0] ∧
    selectIndices ["Aug 2024"] ⟨2024, 9, 10⟩ ⟨2024, 9, 20⟩ = [] := by
  refine ⟨?_, ?_, by decide, by decide, by decide, by decide⟩
  · intro xs s e j hnd
    unfold selectIndices
    rw [hnd]
    simp only [Bool.false_eq_true, if_false]
    rw [mem_selectIdxGo]
    constructor
    · rintro ⟨k, hk, rfl, hkeep⟩
      exact ⟨by simpa using hk, by simpa using hkeep⟩
    · rintro ⟨hj, hkeep⟩
      exact ⟨j, hj, by omega, hkeep⟩
  · intro s e lbl hs
    unfold monthlyInclude
    rw [hs]
    simp only [Bool.false_eq_true, if_false]
    cases hp : parseMonthLabel lbl with
    | none => simp
    | some p =>
      obtain ⟨y, m⟩ := p
      simp only [hp, Option.some.injEq, Prod.mk.injEq, Bool.and_eq_true]
      constructor
      · intro h
        exact ⟨y, m, ⟨rfl, rfl⟩, h⟩
      · rintro ⟨y', m', ⟨rfl, rfl⟩, h⟩
        exact h

/-- Witness for C8: the monthly inclusion of "Aug 2024" in the overlapping
range, derived through the characterizations of the theorem. -/
theorem c8_monthly_mode_witness :
    (0 ∈ selectIndices ["Aug 2024"] ⟨2024, 8, 15⟩ ⟨2024, 9, 5⟩) ∧
      monthlyInclude ⟨2024, 8, 15⟩ ⟨2024, 9, 5⟩ "Aug 2024" = true := by
  have h := c8_monthly_mode
  refine ⟨(h.1 ["Aug 2024"] ⟨2024, 8, 15⟩ ⟨2024, 9, 5⟩ 0 (by decide)).2 ?_, ?_⟩
  · exact ⟨by decide, by decide⟩
  · exact ((h.2.1 ⟨2024, 8, 15⟩ ⟨2024, 9, 5⟩ "Aug 2024" (by decide)).2
      ⟨2024, 8, by decide, by decide, by decide⟩)

/-- Branch characterization of `getCalculationMethod`. -/
theorem getCalculationMethod_spec (a c : Rat) :
    (getCalculationMethod a c = .api ↔ 0 ≤ a) ∧
    (getCalculationMethod a c = .neighborhood ↔ a < 0 ∧ 0 < c) ∧
    (getCalculationMethod a c = .noneUsed ↔ a < 0 ∧ c ≤ 0) := by
  unfold getCalculationMethod
  by_cases h0 : 0 ≤ a
  · simp [h0, not_lt.2 h0]
  · have ha : a < 0 := lt_of_not_ge h0
    by_cases hc : 0 < c
    · simp [h0, ha, hc]
    · simp [h0, ha, hc, le_of_not_gt hc]

/-- C10: in comparison mode the API-side value is the precomputed value
coalesced to 0 and scaled by 100, so an absent precomputed value is
classified `api` with value 0; `neighborhood` is returned exactly when the
API-side value is negative and the derived value positive, and `none`
exactly when the API-side value is negative and the derived value is not
positive. -/
theorem c10_comparison_classification (today : Date) (nd : NeighborhoodData)
    (l : Listing) (t : Timeframe) :
    (l.mpiNext t = none →
      (calculateListingMPIComparison today nd l).api_mpi t = 0 ∧
        (calculateListingMPIComparison today nd l).calculation_method t = Method.api) ∧
    ((calculateListingMPIComparison today nd l).calculation_method t = Method.neighborhood ↔
      (calculateListingMPIComparison today nd l).api_mpi t < 0 ∧
        0 < (calculateListingMPIComparison today nd l).calculated_mpi t) ∧
    ((calculateListingMPIComparison today nd l).calculation_method t = Method.noneUsed ↔
      (calculateListingMPIComparison today nd l).api_mpi t < 0 ∧
        (calculateListingMPIComparison today nd l).calculated_mpi t ≤ 0) := by
  have hm : (calculateListingMPIComparison today nd l).calculation_method t
      = getCalculationMethod (apiMPI l t) (getMPIFromNeighborhood today nd l t) := rfl
  have ha : (calculateListingMPIComparison today nd l).api_mpi t = apiMPI l t := rfl
  have hc : (calculateListingMPIComparison today nd l).calculated_mpi t
      = getMPIFromNeighborhood today nd l t := rfl
  rw [hm, ha, hc]
  refine ⟨?_, (getCalculationMethod_spec _ _).2.1, (getCalculationMethod_spec _ _).2.2⟩
  intro h
  have hz : apiMPI l t = 0 := by simp [apiMPI, h]
  refine ⟨hz, ?_⟩
  rw [hz]
  exact ((getCalculationMethod_spec 0 _).1).2 le_rfl

/-- Witness for C10: a listing with no precomputed 7-day value gets API
value 0 and method `api`. -/
theorem c10_comparison_classification_witness :
    (calculateListingMPIComparison refToday emptyND baseListing).api_mpi .t7 = 0 ∧
      (calculateListingMPIComparison refToday emptyND baseListing).calculation_method .t7
        = Method.api :=
  (c10_comparison_classification refToday emptyND baseListing .t7).1 rfl

/-- Resolver reduction when the precomputed value is invalid. -/
theorem resolveMPI_of_not_precomputed (today : Date) (provider : NeighborhoodProvider)
    (l : Listing) (t : Timeframe) (h : precomputedValid l t = false) :
    resolveMPI today provider l t = resolveMPIDerived today provider l t := by
  unfold resolveMPI
  unfold precomputedValid at h
  cases hm : l.mpiNext t with
  | none => rfl
  | some v =>
    rw [hm] at h
    simp only [decide_eq_false_iff_not] at h
    simp [h]

/-- Derived path depends on the provider only through the one
(listing id, timeframe) call it makes. -/
theorem resolveMPIDerived_congr (today : Date) (p q : NeighborhoodProvider)
    (l : Listing) (t : Timeframe) (h : p l.id t = q l.id t) :
    resolveMPIDerived today p l t = resolveMPIDerived today q l t := by
  unfold resolveMPIDerived
  rw [h]

/-- C2: the top-level computation is total — it returns one per-listing
result per input listing and statistics covering every listing — and every
non-fatal failure (provider error, unresolvable category, empty date
window via zero market occupancy) downgrades exactly the affected
(listing, timeframe) resolution to the unavailable tier with value 0,
without influencing resolutions made through other provider calls. -/
theorem c2_nonfatal_failures (today : Date) (provider : NeighborhoodProvider)
    (ld : ListingsData) (grouping : String) :
    (calculateMPISummaries today provider ld grouping).calculatedMPIs.length
        = ld.listings.length ∧
    (calculateMPISummaries today provider ld grouping).calculationStats.totalListings
        = ld.listings.length ∧
    (∀ (l : Listing) (t : Timeframe), precomputedValid l t = false →
      (provider l.id t = .error () ∨
        (∃ nd, provider l.id t = .ok nd ∧ matchListingToNeighborhood l nd = none) ∨
        (∃ nd cid, provider l.id t = .ok nd ∧
          matchListingToNeighborhood l nd = some cid ∧
          ¬ 0 < calculateMarketOccupancy nd cid (getDateRangeForTimeframe today t).1
              (getDateRangeForTimeframe today t).2)) →
      resolveMPI today provider l t = (0, Tier.unavailable)) ∧
    (∀ (sec : SectionName) (blk : CategoryBlock) (s e : Date),
      selectIndices blk.xvals s e = [] → marketOccupancyOnBlock sec blk s e = 0) ∧
    (∀ (provider' : NeighborhoodProvider) (l : Listing) (t : Timeframe),
      provider l.id t = provider' l.id t →
      resolveMPI today provider l t = resolveMPI today provider' l t) := by
  refine ⟨?_, rfl, ?_, ?_, ?_⟩
  · show (ld.listings.map (calculateListingMPI today provider)).length = ld.listings.length
    exact List.length_map _ _
  · intro l t hp hfail
    rw [resolveMPI_of_not_precomputed today provider l t hp]
    unfold resolveMPIDerived
    rcases hfail with herr | ⟨nd, hok, hmatch⟩ | ⟨nd, cid, hok, hmatch, hmkt⟩
    · rw [herr]
    · simp only [hok, hmatch]
    · simp only [hok, hmatch, hmkt, if_false]
  · intro sec blk s e hsel
    unfold marketOccupancyOnBlock
    rw [hsel]
  · intro provider' l t h
    unfold resolveMPI
    rw [resolveMPIDerived_congr today provider provider' l t h]

/-- Witness for C2: under an always-failing provider a listing with no
precomputed 7-day value resolves to value 0 tagged unavailable. -/
theorem c2_nonfatal_failures_witness :
    resolveMPI refToday failingProvider baseListing .t7 = (0, Tier.unavailable) :=
  (c2_nonfatal_failures refToday failingProvider { listings := [baseListing] }
    "city").2.2.1 baseListing .t7 rfl (Or.inl rfl)

/-- Accumulation loop in terms of the retained contributions: running the
fold from `(a, n)` adds the sum and the count of the retained values. -/
theorem occLoop_go (read : Nat → Option Rat) (idxs : List Nat) :
    ∀ (a : Rat) (n : Nat),
      List.foldl (fun acc i =>
        match read i with
        | none => acc
        | some contrib => (acc.1 + contrib, acc.2 + 1)) (a, n) idxs
      = (a + (idxs.filterMap read).sum, n + (idxs.filterMap read).length) := by
  induction idxs with
  | nil => intro a n; simp
  | cons i is ih =>
    intro a n
    simp only [List.foldl_cons, List.filterMap_cons]
    cases h : read i with
    | none =>
      simp only [h]
      rw [ih]
    | some c =>
      simp only [h]
      rw [ih]
      rw [Prod.mk.injEq]
      constructor
      · rw [List.sum_cons]
        ring
      · rw [List.length_cons]
        omega

/-- Accumulation loop evaluated on its actual initial state. -/
theorem occLoop_eq (read : Nat → Option Rat) (idxs : List Nat) :
    occLoop read idxs = ((idxs.filterMap read).sum, (idxs.filterMap read).length) := by
  unfold occLoop
  rw [occLoop_go]
  simp

/-- C3 (amended): the averaging phase returns the mean of the retained
contributions — samples that are `undefined` or exactly 0 are excluded, a
stored `null` sample is retained and contributes 0, each retained value is
divided by 100, and the result is 0 when no index is in range or nothing is
retained — and the caller computes a derived ratio only when the market
occupancy is positive, downgrading to the unavailable tier otherwise. -/
theorem c3_zero_filtering_amended :
    (∀ (sec : SectionName) (blk : CategoryBlock) (s e : Date),
      marketOccupancyOnBlock sec blk s e = amendedAverageOnBlock sec blk s e) ∧
    (∀ (c : Option Cell) (v : Rat), (c = some (.num v) ∧ v ≠ 0 →
        cellContribution c = some (v / 100)) ∧
      (c = some (.num 0) → cellContribution c = none) ∧
      (c = none → cellContribution c = none) ∧
      (c = some .null → cellContribution c = some 0)) ∧
    (∀ (today : Date) (provider : NeighborhoodProvider) (l : Listing)
        (t : Timeframe) (nd : NeighborhoodData) (cid : String),
      precomputedValid l t = false →
      provider l.id t = .ok nd →
      matchListingToNeighborhood l nd = some cid →
      ¬ 0 < calculateMarketOccupancy nd cid (getDateRangeForTimeframe today t).1
          (getDateRangeForTimeframe today t).2 →
      resolveMPI today provider l t = (0, Tier.unavailable)) := by
  refine ⟨?_, ?_, ?_⟩
  · intro sec blk s e
    unfold marketOccupancyOnBlock amendedAverageOnBlock
    cases hsel : selectIndices blk.xvals s e with
    | nil => rfl
    | cons i0 rest =>
      simp only [occLoop_eq]
      by_cases hl : ((i0 :: rest).filterMap (readContribution sec blk.yvals
          (match sec with
           | .futureOccNewCanc => 0
           | .futurePercentilePrices => pickFppIndex blk.yvals i0))).length = 0
      · simp [hl]
      · simp [hl, Nat.pos_of_ne_zero hl]
  · intro c v
    refine ⟨?_, ?_, ?_, ?_⟩
    · rintro ⟨rfl, hv⟩
      simp [cellContribution, hv]
    · rintro rfl
      simp [cellContribution]
    · rintro rfl
      rfl
    · rintro rfl
      rfl
  · intro today provider l t nd cid hp hok hmatch hmkt
    rw [resolveMPI_of_not_precomputed today provider l t hp]
    unfold resolveMPIDerived
    simp only [hok, hmatch, hmkt, if_false]

/-- Witness for C3 (amended): with a provider returning a dataset with no
locatable category, a listing with no precomputed 7-day value resolves to 0
tagged unavailable. -/
theorem c3_zero_filtering_amended_witness :
    resolveMPI refToday emptyNDProvider baseListing .t7 = (0, Tier.unavailable) :=
  (c3_zero_filtering_amended).2.2 refToday emptyNDProvider baseListing .t7
    emptyND "0" rfl rfl rfl (by decide)

/-- Counterexample for C3 as stated: on a block with one numeric and one
stored-null in-range sample, the code averages 0.4 (the null is retained as
a 0 sample) while the claim's mean of the non-missing, non-zero samples is
0.8. -/
theorem c3_zero_filtering_cex :
    marketOccupancyOnBlock .futureOccNewCanc nullSampleBlock
        ⟨2025, 8, 8⟩ ⟨2025, 8, 9⟩ = 2 / 5 ∧
      claimAverageOnBlock .futureOccNewCanc nullSampleBlock
        ⟨2025, 8, 8⟩ ⟨2025, 8, 9⟩ = 4 / 5 ∧
      (2 / 5 : Rat) ≠ 4 / 5 := by
  have hsel : selectIndices nullSampleBlock.xvals ⟨2025, 8, 8⟩ ⟨2025, 8, 9⟩
      = [0, 1] := by decide
  refine ⟨?_, ?_, by norm_num⟩
  · unfold marketOccupancyOnBlock
    rw [hsel]
    simp only [occLoop, readContribution, cellContribution, nullSampleBlock,
      List.foldl_cons, List.foldl_nil, List.get?, List.head?]
    norm_num
  · unfold claimAverageOnBlock
    rw [hsel]
    simp only [claimReadContribution, claimCellRetained, nullSampleBlock,
      List.filterMap_cons, List.filterMap_nil, List.get?, List.head?]
    norm_num

/-- C4 (amended): in the primary section each category's first ~20
first-channel values are sampled and the category qualifies only if at
least 5 sampled values are non-integers in (0, 100]; the first qualifying
category is selected; when no category qualifies the locator falls back to
the requested category id in the SECONDARY section (`Future Percentile
Prices`), and reports no usable data when the primary section or the
secondary lookup is absent. -/
theorem c4_locator_amended :
    (∀ (nd : NeighborhoodData) (catId : String), nd.futureOccNewCanc = none →
      locateCategory nd catId = none) ∧
    (∀ (nd : NeighborhoodData) (catId : String) (cats : List (String × CategoryBlock))
        (cid : String) (blk : CategoryBlock),
      nd.futureOccNewCanc = some cats →
      cats.find? (fun p => isRealisticCategory p.2) = some (cid, blk) →
      locateCategory nd catId = some (.futureOccNewCanc, cid, blk)) ∧
    (∀ (nd : NeighborhoodData) (catId : String) (cats : List (String × CategoryBlock)),
      nd.futureOccNewCanc = some cats →
      cats.find? (fun p => isRealisticCategory p.2) = none →
      locateCategory nd catId =
        (nd.futurePercentilePrices.bind (fun fcats => lookupCategory fcats catId)).map
          (fun blk => (.futurePercentilePrices, catId, blk))) ∧
    (∀ (blk : CategoryBlock) (ch : Channel), blk.yvals.head? = some ch →
      (isRealisticCategory blk = true ↔
        5 ≤ ((ch.take 20).filter realisticCell).length)) ∧
    (∀ blk : CategoryBlock, blk.yvals.head? = none → isRealisticCategory blk = false) ∧
    (∀ v : Rat, realisticCell (.num v) = true ↔ (0 < v ∧ v ≤ 100 ∧ v.den ≠ 1)) := by
  refine ⟨?_, ?_, ?_, ?_, ?_, ?_⟩
  · intro nd catId h
    unfold locateCategory
    rw [h]
  · intro nd catId cats cid blk h hfind
    unfold locateCategory
    rw [h]
    simp only [hfind]
  · intro nd catId cats h hfind
    unfold locateCategory
    rw [h]
    simp only [hfind]
    cases hf : nd.futurePercentilePrices with
    | none => rfl
    | some fcats =>
      cases hlc : lookupCategory fcats catId with
      | none => simp [hlc]
      | some blk => simp [hlc]
  · intro blk ch h
    unfold isRealisticCategory
    rw [h]
    simp
  · intro blk h
    unfold isRealisticCategory
    rw [h]
  · intro v
    simp [realisticCell]

/-- Witness for C4 (amended): on a dataset whose first primary category is
realistic, the locator selects it regardless of the requested id. -/
theorem c4_locator_amended_witness :
    locateCategory derivableND "9" = some (.futureOccNewCanc, "0", realisticBlock) :=
  c4_locator_amended.2.1 derivableND "9" [("0", realisticBlock)] "0" realisticBlock
    rfl (by decide)

/-- Counterexample for C4 as stated: when no primary category qualifies the
locator does NOT fall back to the requested id in the primary section; it
switches to the secondary section at the requested id. -/
theorem c4_locator_cex :
    isRealisticCategory roundNumberBlock = false ∧
      locateCategory cexLocatorND "5"
        = some (.futurePercentilePrices, "5", fppFallbackBlock) ∧
      locateCategory cexLocatorND "5"
        ≠ some (.futureOccNewCanc, "5", roundNumberBlock) := by
  decide

/-- Per-timeframe counter fold in terms of filtered counts. -/
theorem foldl_count_eq (p : Timeframe → Bool) :
    ∀ (ts : List Timeframe) (acc : Nat × Nat),
      ts.foldl (fun a t => if p t then (a.1 + 1, a.2) else (a.1, a.2 + 1)) acc
        = (acc.1 + (ts.filter p).length,
           acc.2 + (ts.filter (fun t => ! p t)).length) := by
  intro ts
  induction ts with
  | nil => intro acc; simp
  | cons t ts ih =>
    intro acc
    simp only [List.foldl_cons, List.filter_cons]
    cases hp : p t with
    | true =>
      rw [ih, Prod.mk.injEq]
      refine ⟨?_, ?_⟩ <;> simp [hp] <;> omega
    | false =>
      rw [ih, Prod.mk.injEq]
      refine ⟨?_, ?_⟩ <;> simp [hp] <;> omega

/-- Per-listing counter step in terms of filtered counts. -/
theorem countListingStats_eq (l : Listing) (acc : Nat × Nat) :
    countListingStats acc l
      = (acc.1 + (allTimeframes.filter (fun t => precomputedValid l t)).length,
         acc.2 + (allTimeframes.filter (fun t => ! precomputedValid l t)).length) := by
  unfold countListingStats
  rw [foldl_count_eq]

/-- Whole-collection counter pass in terms of the declarative counts. -/
theorem countAllStats_eq (ls : List Listing) :
    ∀ acc : Nat × Nat,
      ls.foldl countListingStats acc
        = (acc.1 + countPrecomputedResolutions ls,
           acc.2 + countNonPrecomputedResolutions ls) := by
  induction ls with
  | nil =>
    intro acc
    simp [countPrecomputedResolutions, countNonPrecomputedResolutions]
  | cons l ls ih =>
    intro acc
    simp only [List.foldl_cons]
    rw [countListingStats_eq, ih]
    unfold countPrecomputedResolutions countNonPrecomputedResolutions
    simp only [List.map_cons, List.sum_cons]
    rw [Prod.mk.injEq]
    constructor <;> omega

/-- Derived path never reports the precomputed tier. -/
theorem resolveMPIDerived_ne_precomputed (today : Date)
    (provider : NeighborhoodProvider) (l : Listing) (t : Timeframe) :
    (resolveMPIDerived today provider l t).2 ≠ Tier.precomputed := by
  unfold resolveMPIDerived
  cases hp : provider l.id t with
  | error e => simp [hp]
  | ok nd =>
    cases hm : matchListingToNeighborhood l nd with
    | none => simp [hp, hm]
    | some cid =>
      simp only [hp, hm]
      split
      · simp
      · simp

/-- C5 (amended): the first counter counts exactly the resolutions with a
valid precomputed value (equivalently, the precomputed-tier resolutions);
the derived-used counter is identically 0; and the unavailable counter
counts ALL resolutions without a valid precomputed value, whether or not
the derived calculation succeeded. -/
theorem c5_statistics_amended (today : Date) (provider : NeighborhoodProvider)
    (ld : ListingsData) (grouping : String) :
    (calculateMPISummaries today provider ld grouping).calculationStats.existingMPIUsed
        = countPrecomputedResolutions ld.listings ∧
    (calculateMPISummaries today provider ld grouping).calculationStats.neighborhoodCalculated
        = 0 ∧
    (calculateMPISummaries today provider ld grouping).calculationStats.noDataAvailable
        = countNonPrecomputedResolutions ld.listings ∧
    (∀ (l : Listing) (t : Timeframe),
      precomputedValid l t = true ↔ (resolveMPI today provider l t).2 = Tier.precomputed) := by
  refine ⟨?_, rfl, ?_, ?_⟩
  · show (countAllStats ld.listings).1 = _
    unfold countAllStats
    rw [countAllStats_eq]
    simp
  · show (countAllStats ld.listings).2 = _
    unfold countAllStats
    rw [countAllStats_eq]
    simp
  · intro l t
    constructor
    · intro h
      unfold precomputedValid at h
      cases hm : l.mpiNext t with
      | none => rw [hm] at h; exact absurd h (by simp)
      | some v =>
        rw [hm] at h
        simp only [decide_eq_true_eq] at h
        unfold resolveMPI
        rw [hm]
        simp [h]
    · intro h
      by_contra hq
      have hf : precomputedValid l t = false := by
        cases hb : precomputedValid l t with
        | true => exact absurd hb hq
        | false => rfl
      rw [resolveMPI_of_not_precomputed today provider l t hf] at h
      exact resolveMPIDerived_ne_precomputed today provider l t h

/-- Witness for C5 (amended): the tier equivalence instantiated at the
zero-valued precomputed listing. -/
theorem c5_statistics_amended_witness :
    (resolveMPI refToday failingProvider zeroMPIListing .t7).2 = Tier.precomputed :=
  ((c5_statistics_amended refToday failingProvider { listings := [zeroMPIListing] }
    "city").2.2.2 zeroMPIListing .t7).1 (by decide)

/-- Counterexample for C5 as stated: on a run whose single listing has no
precomputed values but a fully derivable 7-day resolution (tier derived),
the derived-used counter still reads 0 and the unavailable counter reads 5. -/
theorem c5_statistics_cex :
    (resolveMPI refToday derivableProvider derivableListing .t7).2 = Tier.derived ∧
      (calculateMPISummaries refToday derivableProvider derivableLD
        "city").calculationStats.neighborhoodCalculated = 0 ∧
      (calculateMPISummaries refToday derivableProvider derivableLD
        "city").calculationStats.noDataAvailable = 5 := by
  refine ⟨?_, rfl, by decide⟩
  have hloc : locateCategory derivableND "0"
      = some (.futureOccNewCanc, "0", realisticBlock) := by decide
  have hsel : selectIndices realisticBlock.xvals ⟨2025, 8, 8⟩ ⟨2025, 8, 14⟩
      = [0, 1, 2, 3, 4] := by decide
  have hmkt : calculateMarketOccupancy derivableND "0" ⟨2025, 8, 8⟩ ⟨2025, 8, 14⟩
      = 31 / 40 := by
    have hred : calculateMarketOccupancy derivableND "0" ⟨2025, 8, 8⟩ ⟨2025, 8, 14⟩
        = marketOccupancyOnBlock .futureOccNewCanc realisticBlock
            ⟨2025, 8, 8⟩ ⟨2025, 8, 14⟩ := by
      unfold calculateMarketOccupancy
      rw [hloc]
    rw [hred]
    unfold marketOccupancyOnBlock
    rw [hsel]
    simp only [occLoop, readContribution, cellContribution, realisticBlock,
      List.foldl_cons, List.foldl_nil, List.get?, List.head?, Rat.mkRat_eq_div]
    norm_num
  have hrange : getDateRangeForTimeframe refToday .t7 = (⟨2025, 8, 8⟩, ⟨2025, 8, 14⟩) := by
    decide
  have hnone : derivableListing.mpiNext .t7 = none := rfl
  unfold resolveMPI
  rw [hnone]
  unfold resolveMPIDerived
  have hprov : derivableProvider derivableListing.id .t7 = .ok derivableND := rfl
  rw [hprov, hrange]
  have hmatch : matchListingToNeighborhood derivableListing derivableND = some "0" := rfl
  simp only [hmatch, hmkt]
  rw [if_pos (by norm_num)]

/-- Lookup after a group-map insertion. -/
theorem lookupGroup_insertGroup (m : List (String × List CalculatedMPI))
    (k k' : String) (v : CalculatedMPI) :
    lookupGroup (insertGroup m k v) k'
      = if k' = k then lookupGroup m k' ++ [v] else lookupGroup m k' := by
  induction m with
  | nil =>
    unfold insertGroup
    by_cases h : k' = k
    · subst h
      simp [lookupGroup]
    · have h2 : ¬ (k = k') := fun hh => h hh.symm
      simp [lookupGroup, h, h2]
  | cons p rest ih =>
    obtain ⟨k0, vs0⟩ := p
    unfold insertGroup
    by_cases h0 : k0 = k
    · subst h0
      rw [if_pos rfl]
      by_cases h' : k' = k0
      · subst h'
        simp [lookupGroup]
      · have h2 : ¬ (k0 = k') := fun hh => h' hh.symm
        simp [lookupGroup, h', h2]
    · rw [if_neg h0]
      by_cases h' : k' = k0
      · subst h'
        simp [lookupGroup, h0]
      · have h2 : ¬ (k0 = k') := fun hh => h' hh.symm
        simp only [lookupGroup, h2, if_false]
        exact ih

/-- Grouping fold in terms of a filter of the input results. -/
theorem buildGroupMap_go (ld : ListingsData) (grouping : String) :
    ∀ (mpis : List CalculatedMPI) (m : List (String × List CalculatedMPI))
      (k : String),
      lookupGroup (mpis.foldl (fun m mpi =>
        match resolvedKey ld grouping mpi with
        | none => m
        | some k => insertGroup m k mpi) m) k
      = lookupGroup m k
          ++ mpis.filter (fun x => decide (resolvedKey ld grouping x = some k)) := by
  intro mpis
  induction mpis with
  | nil => intro m k; simp
  | cons x xs ih =>
    intro m k
    simp only [List.foldl_cons, List.filter_cons]
    cases hr : resolvedKey ld grouping x with
    | none =>
      simp only [hr]
      rw [ih]
      simp
    | some kx =>
      simp only [hr]
      rw [ih, lookupGroup_insertGroup]
      by_cases hk : k = kx
      · subst hk
        simp [List.append_assoc]
      · have hne : ¬ (some kx = (some k : Option String)) := by
          intro hh
          exact hk (Option.some.inj hh).symm
        simp [hk, hne]

/-- Lookup in the grouping map equals the member filter. -/
theorem lookupGroup_buildGroupMap (ld : ListingsData) (grouping : String)
    (mpis : List CalculatedMPI) (k : String) :
    lookupGroup (buildGroupMap ld grouping mpis) k = groupMembers ld grouping mpis k := by
  unfold buildGroupMap groupMembers
  rw [buildGroupMap_go]
  simp [lookupGroup]

/-- Keys after a group-map insertion. -/
theorem keys_insertGroup (m : List (String × List CalculatedMPI)) (k : String)
    (v : CalculatedMPI) :
    (insertGroup m k v).map Prod.fst
      = if k ∈ m.map Prod.fst then m.map Prod.fst else m.map Prod.fst ++ [k] := by
  induction m with
  | nil => simp [insertGroup]
  | cons p rest ih =>
    obtain ⟨k0, vs0⟩ := p
    unfold insertGroup
    by_cases h0 : k0 = k
    · subst h0
      simp
    · rw [if_neg h0]
      simp only [List.map_cons]
      rw [ih]
      have hne : ¬ (k = k0) := fun hh => h0 hh.symm
      by_cases hm : k ∈ rest.map Prod.fst
      · simp [hm, List.mem_cons, hne]
      · simp [hm, List.mem_cons, hne]

/-- Key distinctness is preserved by a group-map insertion. -/
theorem nodupKeys_insertGroup (m : List (String × List CalculatedMPI))
    (k : String) (v : CalculatedMPI) (h : (m.map Prod.fst).Nodup) :
    ((insertGroup m k v).map Prod.fst).Nodup := by
  rw [keys_insertGroup]
  by_cases hm : k ∈ m.map Prod.fst
  · simpa [hm] using h
  · rw [if_neg hm]
    rw [List.nodup_append]
    refine ⟨h, List.nodup_singleton k, ?_⟩
    intro a ha hb
    simp only [List.mem_singleton] at hb
    subst hb
    exact hm ha

/-- Keys of the grouping map are distinct. -/
theorem nodupKeys_buildGroupMap (ld : ListingsData) (grouping : String)
    (mpis : List CalculatedMPI) :
    ((buildGroupMap ld grouping mpis).map Prod.fst).Nodup := by
  unfold buildGroupMap
  suffices hgen : ∀ (xs : List CalculatedMPI) (m : List (String × List CalculatedMPI)),
      (m.map Prod.fst).Nodup →
      ((xs.foldl (fun m mpi =>
        match resolvedKey ld grouping mpi with
        | none => m
        | some k => insertGroup m k mpi) m).map Prod.fst).Nodup by
    exact hgen mpis [] (by simp)
  intro xs
  induction xs with
  | nil => intro m h; simpa using h
  | cons x xs ih =>
    intro m h
    simp only [List.foldl_cons]
    cases hr : resolvedKey ld grouping x with
    | none => exact ih m h
    | some kx => exact ih _ (nodupKeys_insertGroup m kx x h)

/-- On a map with distinct keys, membership determines the lookup. -/
theorem lookupGroup_of_mem :
    ∀ (m : List (String × List CalculatedMPI)) (k : String)
      (vs : List CalculatedMPI), (m.map Prod.fst).Nodup → (k, vs) ∈ m →
      lookupGroup m k = vs := by
  intro m
  induction m with
  | nil => intro k vs _ h; simp at h
  | cons p rest ih =>
    intro k vs hnd hm
    obtain ⟨k0, vs0⟩ := p
    rcases List.mem_cons.1 hm with heq | htail
    · obtain ⟨rfl, rfl⟩ := Prod.mk.injEq .. ▸ heq
      simp [lookupGroup]
    · rw [List.map_cons] at hnd
      have hk0 : k0 ∉ rest.map Prod.fst := (List.nodup_cons.1 hnd).1
      have hk : ¬ (k0 = k) := by
        intro hh
        subst hh
        exact hk0 (List.mem_map.2 ⟨(k0, vs), htail, rfl⟩)
      simp only [lookupGroup, hk, if_false]
      exact ih k vs (List.nodup_cons.1 hnd).2 htail

/-- Nonempty lookup results are entries of the map. -/
theorem lookupGroup_mem :
    ∀ (m : List (String × List CalculatedMPI)) (k : String),
      lookupGroup m k ≠ [] → (k, lookupGroup m k) ∈ m := by
  intro m
  induction m with
  | nil => intro k h; simp [lookupGroup] at h
  | cons p rest ih =>
    intro k h
    obtain ⟨k0, vs0⟩ := p
    by_cases h0 : k0 = k
    · subst h0
      have hl : lookupGroup ((k0, vs0) :: rest) k0 = vs0 := by simp [lookupGroup]
      rw [hl]
      exact List.mem_cons_self _ _
    · simp only [lookupGroup, h0, if_false] at h ⊢
      exact List.mem_cons_of_mem _ (ih k h)

/-- Entries of the grouping map hold nonempty member lists. -/
theorem values_buildGroupMap (ld : ListingsData) (grouping : String)
    (mpis : List CalculatedMPI) :
    ∀ p ∈ buildGroupMap ld grouping mpis, p.2 ≠ ([] : List CalculatedMPI) := by
  unfold buildGroupMap
  suffices hins : ∀ (m : List (String × List CalculatedMPI)) (k : String)
      (v : CalculatedMPI), (∀ p ∈ m, p.2 ≠ ([] : List CalculatedMPI)) →
      ∀ p ∈ insertGroup m k v, p.2 ≠ ([] : List CalculatedMPI) by
    suffices hgen : ∀ (xs : List CalculatedMPI)
        (m : List (String × List CalculatedMPI)),
        (∀ p ∈ m, p.2 ≠ ([] : List CalculatedMPI)) →
        ∀ p ∈ xs.foldl (fun m mpi =>
          match resolvedKey ld grouping mpi with
          | none => m
          | some k => insertGroup m k mpi) m, p.2 ≠ ([] : List CalculatedMPI) by
      exact hgen mpis [] (by simp)
    intro xs
    induction xs with
    | nil => intro m h; simpa using h
    | cons x xs ih =>
      intro m h
      simp only [List.foldl_cons]
      cases hr : resolvedKey ld grouping x with
      | none => exact ih m h
      | some kx => exact ih _ (hins m kx x h)
  intro m
  induction m with
  | nil =>
    intro k v _ p hp
    simp only [insertGroup, List.mem_singleton] at hp
    subst hp
    simp
  | cons q rest ih =>
    intro k v h p hp
    obtain ⟨k0, vs0⟩ := q
    unfold insertGroup at hp
    by_cases h0 : k0 = k
    · rw [if_pos h0] at hp
      rcases List.mem_cons.1 hp with rfl | ht
      · simp
      · exact h p (List.mem_cons_of_mem _ ht)
    · rw [if_neg h0] at hp
      rcases List.mem_cons.1 hp with rfl | ht
      · exact h _ (List.mem_cons_self _ _)
      · exact ih k v (fun q hq => h q (List.mem_cons_of_mem _ hq)) p ht

/-- Summation fold of the per-group averages in terms of `List.sum`. -/
theorem foldl_add_map (f : CalculatedMPI → Rat) :
    ∀ (ms : List CalculatedMPI) (a : Rat),
      ms.foldl (fun acc m => acc + f m) a = a + (ms.map f).sum := by
  intro ms
  induction ms with
  | nil => intro a; simp
  | cons x xs ih =>
    intro a
    simp only [List.foldl_cons, List.map_cons, List.sum_cons]
    rw [ih]
    ring

/-- C9: the group summaries are sorted by group key; each summary reports,
per timeframe, the arithmetic mean (rounded to 2 decimal places) of the
resolved values over exactly the results whose resolved group key matches,
together with the member count; every resolved key is represented; and the
Denver/Denver/Miami example under city grouping yields exactly the groups
Denver (2 listings) and Miami (1 listing). -/
theorem c9_group_summaries :
    (∀ (mpis : List CalculatedMPI) (grouping : String) (ld : ListingsData),
      List.Sorted summaryLE (calculateGroupAverages mpis grouping ld)) ∧
    (∀ (mpis : List CalculatedMPI) (grouping : String) (ld : ListingsData)
        (s : MPISummary), s ∈ calculateGroupAverages mpis grouping ld →
      groupMembers ld grouping mpis s.group ≠ [] ∧
      s.listingCount = (groupMembers ld grouping mpis s.group).length ∧
      s.mpi_7 = round2 (((groupMembers ld grouping mpis s.group).map
          (fun m => m.mpi_7)).sum
        / ((groupMembers ld grouping mpis s.group).length : Rat)) ∧
      s.mpi_30 = round2 (((groupMembers ld grouping mpis s.group).map
          (fun m => m.mpi_30)).sum
        / ((groupMembers ld grouping mpis s.group).length : Rat)) ∧
      s.mpi_60 = round2 (((groupMembers ld grouping mpis s.group).map
          (fun m => m.mpi_60)).sum
        / ((groupMembers ld grouping mpis s.group).length : Rat)) ∧
      s.mpi_90 = round2 (((groupMembers ld grouping mpis s.group).map
          (fun m => m.mpi_90)).sum
        / ((groupMembers ld grouping mpis s.group).length : Rat)) ∧
      s.mpi_120 = round2 (((groupMembers ld grouping mpis s.group).map
          (fun m => m.mpi_120)).sum
        / ((groupMembers ld grouping mpis s.group).length : Rat))) ∧
    (∀ (mpis : List CalculatedMPI) (grouping : String) (ld : ListingsData)
        (k : String), (∃ x ∈ mpis, resolvedKey ld grouping x = some k) →
      ∃ s ∈ calculateGroupAverages mpis grouping ld, s.group = k) ∧
    (calculateMPISummaries refToday failingProvider groupingLD "city").summaries.map
        (fun s => (s.group, s.listingCount)) = [("Denver", 2), ("Miami", 1)] := by
  refine ⟨?_, ?_, ?_, ?_⟩
  · intro mpis grouping ld
    unfold calculateGroupAverages
    exact List.sorted_insertionSort summaryLE _
  · intro mpis grouping ld s hs
    unfold calculateGroupAverages at hs
    have hs' := (List.perm_insertionSort summaryLE _).mem_iff.1 hs
    obtain ⟨p, hp, rfl⟩ := List.mem_map.1 hs'
    obtain ⟨k, vs⟩ := p
    have hne : vs ≠ [] := values_buildGroupMap ld grouping mpis (k, vs) hp
    have hvs : vs = groupMembers ld grouping mpis k := by
      have h1 : lookupGroup (buildGroupMap ld grouping mpis) k = vs :=
        lookupGroup_of_mem _ k vs (nodupKeys_buildGroupMap ld grouping mpis) hp
      rw [← h1, lookupGroup_buildGroupMap]
    have hgroup : (mkSummary k vs).group = k := rfl
    rw [hgroup, ← hvs]
    refine ⟨hne, rfl, ?_, ?_, ?_, ?_, ?_⟩ <;>
      simp only [mkSummary, foldl_add_map, zero_add]
  · intro mpis grouping ld k hk
    obtain ⟨x, hx, hrx⟩ := hk
    have hmem : x ∈ groupMembers ld grouping mpis k :=
      List.mem_filter.2 ⟨hx, by simp [hrx]⟩
    have hne : groupMembers ld grouping mpis k ≠ [] := List.ne_nil_of_mem hmem
    have hlk : lookupGroup (buildGroupMap ld grouping mpis) k ≠ [] := by
      rw [lookupGroup_buildGroupMap]
      exact hne
    have hin := lookupGroup_mem _ k hlk
    refine ⟨mkSummary k (lookupGroup (buildGroupMap ld grouping mpis) k), ?_, rfl⟩
    unfold calculateGroupAverages
    rw [(List.perm_insertionSort summaryLE _).mem_iff]
    exact List.mem_map.2 ⟨(k, lookupGroup (buildGroupMap ld grouping mpis) k), hin, rfl⟩
  · decide

/-- Witness for C9: the grouping example contains a Denver group, derived
through the completeness part of the theorem. -/
theorem c9_group_summaries_witness :
    ∃ s ∈ calculateGroupAverages
        (groupingLD.listings.map (calculateListingMPI refToday failingProvider))
        "city" groupingLD, s.group = "Denver" := by
  refine c9_group_summaries.2.2.1 _ "city" groupingLD "Denver" ?_
  refine ⟨calculateListingMPI refToday failingProvider denverListing1, ?_, ?_⟩
  · exact List.mem_map.2 ⟨denverListing1, by simp [groupingLD], rfl⟩
  · decide
